import Mathlib

/-!
Shallow embedding of the Google My Business client library (`コード.js`).

The repository is a Google Apps Script client: a request executor
(`request`) and a family of endpoint functions that either issue a single
request (`searchChains`, `getInsights`, ...) or run a do/while pagination
loop accumulating an items field from each JSON page.

Modelling choices:
  * JSON values are `JVal` (with `jundef` for JavaScript `undefined`).
  * The transport collaborator (`UrlFetchApp.fetch`) is modelled as a
    trace: a `NetState` holds the list of pending upstream responses,
    consumed one per fetch, plus a log of issued requests and the list of
    executed `Utilities.sleep` durations.  An exhausted pending list is a
    transport failure (`GmbError.transportError`), mirroring the spec's
    `TransportError` taxon; the claims only exercise runs with enough
    responses.
  * `ScriptApp.getOAuthToken()` is a string parameter, `JSON.parse` an
    arbitrary function parameter `parseJson : String → JVal`.
-/

/-- JavaScript/JSON values.  `jundef` models `undefined` (e.g. a missing
object property); numbers are modelled as integers, which covers every
numeric literal occurring in this code base. -/
inductive JVal where
  | jundef : JVal
  | jnull : JVal
  | jbool : Bool → JVal
  | jnum : Int → JVal
  | jstr : String → JVal
  | jarr : List JVal → JVal
  | jobj : List (String × JVal) → JVal

/-- JavaScript truthiness of a value (as used by `if (payload)`,
`if (pageToken)`, `while (pageToken)`). -/
def jsTruthy : JVal → Bool
  | JVal.jundef => false
  | JVal.jnull => false
  | JVal.jbool b => b
  | JVal.jnum n => if n = 0 then false else true
  | JVal.jstr s => if s = "" then false else true
  | JVal.jarr _ => true
  | JVal.jobj _ => true

/-- Truthiness of a variable that may hold `undefined` (modelled `none`),
like the `pageToken` loop variable before its first assignment. -/
def jsTruthyOpt : Option JVal → Bool
  | none => false
  | some v => jsTruthy v

/-- Property access `v.field`: `none` is JavaScript `undefined` (absent
property, or access on a non-object primitive). -/
def jsGet (v : JVal) (field : String) : Option JVal :=
  match v with
  | JVal.jobj fs => fs.lookup field
  | _ => none

mutual

/-- JavaScript string conversion, as performed by template-literal
interpolation.  Arrays convert via `Array.prototype.join(",")`, in which
`null` and `undefined` elements become the empty string. -/
def jsToString : JVal → String
  | JVal.jundef => "undefined"
  | JVal.jnull => "null"
  | JVal.jbool true => "true"
  | JVal.jbool false => "false"
  | JVal.jnum n => toString n
  | JVal.jstr s => s
  | JVal.jarr xs => jsJoinList xs
  | JVal.jobj _ => "[object Object]"

/-- Comma-join of array elements for `jsToString`. -/
def jsJoinList : List JVal → String
  | [] => ""
  | v :: vs =>
    let s : String :=
      match v with
      | JVal.jundef => ""
      | JVal.jnull => ""
      | w => jsToString w
    match vs with
    | [] => s
    | _ :: _ => s ++ "," ++ jsJoinList vs

end

/-- Template interpolation of an expression that may be `undefined`, such
as `account.name` on an object without a `name` property. -/
def jsToStringOpt : Option JVal → String
  | none => "undefined"
  | some v => jsToString v

/-- Escape of one character inside a JSON string literal. -/
def escapeJsonChar (c : Char) : String :=
  if c = '"' then "\\\""
  else if c = '\\' then "\\\\"
  else if c = '\n' then "\\n"
  else if c = '\r' then "\\r"
  else if c = '\t' then "\\t"
  else String.singleton c

/-- Escape of a JSON string literal body. -/
def escapeJson (s : String) : String :=
  String.join (s.toList.map escapeJsonChar)

mutual

/-- `JSON.stringify`.  (`undefined` is rendered as `null`, its array
serialization; no payload built by this code base contains `undefined`.) -/
def jsonStringify : JVal → String
  | JVal.jundef => "null"
  | JVal.jnull => "null"
  | JVal.jbool true => "true"
  | JVal.jbool false => "false"
  | JVal.jnum n => toString n
  | JVal.jstr s => "\"" ++ escapeJson s ++ "\""
  | JVal.jarr xs => "[" ++ jsonStringifyList xs ++ "]"
  | JVal.jobj fs => "\x7b" ++ jsonStringifyFields fs ++ "\x7d"

/-- Comma-separated serialization of array elements. -/
def jsonStringifyList : List JVal → String
  | [] => ""
  | [v] => jsonStringify v
  | v :: vs => jsonStringify v ++ "," ++ jsonStringifyList vs

/-- Comma-separated serialization of object fields. -/
def jsonStringifyFields : List (String × JVal) → String
  | [] => ""
  | [(k, v)] => "\"" ++ escapeJson k ++ "\":" ++ jsonStringify v
  | (k, v) :: fs =>
      "\"" ++ escapeJson k ++ "\":" ++ jsonStringify v ++ "," ++ jsonStringifyFields fs

end

/-- What the transport collaborator (`UrlFetchApp.fetch`) returns:
`getResponseCode()` and `getContentText()`. -/
structure FetchResponse where
  code : Int
  content : String

/-- The `param` object handed to `UrlFetchApp.fetch`.  `payload` is the
serialized request body, `none` when no `payload` key was set. -/
structure FetchParam where
  method : String
  authorization : String
  contentType : String
  muteHttpExceptions : Bool
  payload : Option String

/-- The data carried by the error `request` throws on a non-200 status:
`JSON.stringify({code, content, message})`. -/
structure RequestError where
  code : Int
  content : String
  message : String

/-- Failures surfaced by the request layer: a non-200 upstream response,
or a failure of the transport collaborator itself (modelled here as the
pending-response trace being exhausted). -/
inductive GmbError where
  | requestError : RequestError → GmbError
  | transportError : GmbError

/-- The observable network state threaded through a run: upstream
responses not yet consumed, the log of issued requests (URI and fetch
params), and the durations of executed `Utilities.sleep` calls. -/
structure NetState where
  pending : List FetchResponse
  log : List (String × FetchParam)
  sleeps : List Nat


/-- The fetch `param` object built by `request`:
method, `Authorization: Bearer <token>`, `Content-Type: application/json`,
`muteHttpExceptions: true`, and — only when the payload is truthy —
`payload: JSON.stringify(payload)`. -/
def mkFetchParam (token : String) (method : String) (payload : JVal) : FetchParam :=
  { method := method,
    authorization := "Bearer " ++ token,
    contentType := "application/json",
    muteHttpExceptions := true,
    payload := if jsTruthy payload then some (jsonStringify payload) else none }

/-- Status handling of `request` on one fetch response: on 200 parse the
body, otherwise throw `Error(JSON.stringify({code, content, message}))`,
modelled as the structured `RequestError` it carries. -/
def requestCore (parseJson : String → JVal) (resp : FetchResponse) :
    Except RequestError JVal :=
  if resp.code = 200 then
    Except.ok (parseJson resp.content)
  else
    Except.error
      { code := resp.code, content := resp.content,
        message := "This Request was not successful" }

/-- The default of the `payload` parameter of `request` (`payload=''`). -/
def requestDefaultPayload : JVal := JVal.jstr ""

/-- `request(endPoint, method, payload)`: issue exactly one fetch with the
built params, consuming the next pending upstream response; 200 parses and
returns the body, any other status throws.  An exhausted trace is a
transport failure. -/
def request (parseJson : String → JVal) (token : String) (endPoint : String)
    (method : String) (payload : JVal) (st : NetState) :
    Except GmbError JVal × NetState :=
  let logEntry := (endPoint, mkFetchParam token method payload)
  match st.pending with
  | [] => (Except.error GmbError.transportError, ⟨[], st.log ++ [logEntry], st.sleeps⟩)
  | resp :: rest =>
    match requestCore parseJson resp with
    | Except.ok v => (Except.ok v, ⟨rest, st.log ++ [logEntry], st.sleeps⟩)
    | Except.error e =>
        (Except.error (GmbError.requestError e), ⟨rest, st.log ++ [logEntry], st.sleeps⟩)

/-- JavaScript `xs.concat(v)` for a possibly-undefined `v`: an array
argument contributes its elements, any other value — `undefined`
included — is appended as a single element. -/
def concatArg : Option JVal → List JVal
  | some (JVal.jarr ys) => ys
  | some w => [w]
  | none => [JVal.jundef]

/-- The shared do/while pagination loop body (duplicated verbatim across
the listing functions of the source): build the endpoint from the held
page token, `await request(endpoint, 'GET')`, concatenate the page's items
field onto the accumulator (JavaScript `Array.prototype.concat`, which
appends `undefined` as a single element when the field is absent), store
`response.nextPageToken`, `Utilities.sleep(1000)`, and loop while the
token is truthy.  A thrown request error propagates at once — skipping the
sleep — and discards the accumulator. -/
def pageLoop (parseJson : String → JVal) (token : String)
    (buildEndpoint : Option JVal → String) (itemsField : String) :
    List FetchResponse → List JVal → Option JVal →
    List (String × FetchParam) → List Nat →
    Except GmbError (List JVal) × NetState
  | [], _result, pageToken, log, sleeps =>
      (Except.error GmbError.transportError,
       ⟨[], log ++ [(buildEndpoint pageToken, mkFetchParam token "GET" requestDefaultPayload)],
        sleeps⟩)
  | resp :: rest, result, pageToken, log, sleeps =>
    let log' := log ++ [(buildEndpoint pageToken, mkFetchParam token "GET" requestDefaultPayload)]
    match requestCore parseJson resp with
    | Except.error e => (Except.error (GmbError.requestError e), ⟨rest, log', sleeps⟩)
    | Except.ok response =>
        let result' := result ++ concatArg (jsGet response itemsField)
        let nextTok := jsGet response "nextPageToken"
        let sleeps' := sleeps ++ [1000]
        if jsTruthyOpt nextTok then
          pageLoop parseJson token buildEndpoint itemsField rest result' nextTok log' sleeps'
        else
          (Except.ok result', ⟨rest, log', sleeps'⟩)

/-- Base URI of `getAccounts`. -/
def getAccountsBase : String :=
  "https://mybusinessaccountmanagement.googleapis.com/v1/accounts?pageSize=20"

/-- Endpoint built by one `getAccounts` iteration: base URI, then
`&pageToken=<token>` if a token is held, then `&parentAccount=<parent>`
if a parent account was supplied. -/
def getAccountsEndpoint (parentAccount : String) (pageToken : Option JVal) : String :=
  let e := getAccountsBase
  let e := if jsTruthyOpt pageToken then e ++ "&pageToken=" ++ jsToStringOpt pageToken else e
  if parentAccount = "" then e else e ++ "&parentAccount=" ++ parentAccount

/-- `getAccounts(parentAccount)`: paginate the accounts listing,
accumulating `response.accounts` across pages. -/
def getAccounts (parseJson : String → JVal) (token : String)
    (parentAccount : String) (st : NetState) :
    Except GmbError (List JVal) × NetState :=
  pageLoop parseJson token (getAccountsEndpoint parentAccount) "accounts"
    st.pending [] none st.log st.sleeps

/-- Base URI of `getLocations` (the account-object variant): path
parameter `${account.name}`, fixed pageSize and readMask query. -/
def getLocationsBase (account : JVal) : String :=
  "https://mybusinessbusinessinformation.googleapis.com/v1/"
    ++ jsToStringOpt (jsGet account "name")
    ++ "/locations?pageSize=100"
    ++ "&readMask=name,title,phoneNumbers,categories,storefrontAddress,websiteUri,regularHours,specialHours,serviceArea,latlng,openInfo,metadata,profile,relationshipData,moreHours,serviceItems"

/-- Endpoint built by one `getLocations` iteration (`&pageToken=`). -/
def getLocationsEndpoint (account : JVal) (pageToken : Option JVal) : String :=
  if jsTruthyOpt pageToken then
    getLocationsBase account ++ "&pageToken=" ++ jsToStringOpt pageToken
  else
    getLocationsBase account

/-- `getLocations(account)`: paginate, accumulating `response.locations`. -/
def getLocations (parseJson : String → JVal) (token : String)
    (account : JVal) (st : NetState) :
    Except GmbError (List JVal) × NetState :=
  pageLoop parseJson token (getLocationsEndpoint account) "locations"
    st.pending [] none st.log st.sleeps

/-- Base URI of `getAllCategories` — note it already contains a full
query string starting with `?regionCode=JP`. -/
def getAllCategoriesBase : String :=
  "https://mybusinessbusinessinformation.googleapis.com/v1/categories?regionCode=JP&languageCode=ja&view=FULL"

/-- Endpoint built by one `getAllCategories` iteration: the source
appends `?pageToken=` (a second `?`) rather than `&pageToken=`. -/
def getAllCategoriesEndpoint (pageToken : Option JVal) : String :=
  if jsTruthyOpt pageToken then
    getAllCategoriesBase ++ "?pageToken=" ++ jsToStringOpt pageToken
  else
    getAllCategoriesBase

/-- `getAllCategories()`: paginate, accumulating `response.categories`. -/
def getAllCategories (parseJson : String → JVal) (token : String) (st : NetState) :
    Except GmbError (List JVal) × NetState :=
  pageLoop parseJson token getAllCategoriesEndpoint "categories"
    st.pending [] none st.log st.sleeps

/-- Base URI of `getAllAttributes` — also already holding a `?` query. -/
def getAllAttributesBase : String :=
  "https://mybusinessbusinessinformation.googleapis.com/v1/attributes?regionCode=JP&languageCode=ja&showAll=true"

/-- Endpoint built by one `getAllAttributes` iteration: like the
categories loop it appends `?pageToken=`. -/
def getAllAttributesEndpoint (pageToken : Option JVal) : String :=
  if jsTruthyOpt pageToken then
    getAllAttributesBase ++ "?pageToken=" ++ jsToStringOpt pageToken
  else
    getAllAttributesBase

/-- `getAllAttributes()`: paginate, accumulating
`response.attributeMetadata`. -/
def getAllAttributes (parseJson : String → JVal) (token : String) (st : NetState) :
    Except GmbError (List JVal) × NetState :=
  pageLoop parseJson token getAllAttributesEndpoint "attributeMetadata"
    st.pending [] none st.log st.sleeps

/-- Base URI of `getPlaceActionLink` — path parameter `${location.name}`,
no query string of its own. -/
def getPlaceActionLinkBase (location : JVal) : String :=
  "https://mybusinessplaceactions.googleapis.com/v1/"
    ++ jsToStringOpt (jsGet location "name")
    ++ "/placeActionLinks"

/-- Endpoint built by one `getPlaceActionLink` iteration: appends
`?pageToken=` — correct here, since the base URI holds no query. -/
def getPlaceActionLinkEndpoint (location : JVal) (pageToken : Option JVal) : String :=
  if jsTruthyOpt pageToken then
    getPlaceActionLinkBase location ++ "?pageToken=" ++ jsToStringOpt pageToken
  else
    getPlaceActionLinkBase location

/-- `getPlaceActionLink(location)`: paginate, accumulating
`response.placeActionLinks`. -/
def getPlaceActionLink (parseJson : String → JVal) (token : String)
    (location : JVal) (st : NetState) :
    Except GmbError (List JVal) × NetState :=
  pageLoop parseJson token (getPlaceActionLinkEndpoint location) "placeActionLinks"
    st.pending [] none st.log st.sleeps

/-- Base URI of `getLocalPosts` (v4, name-string variant). -/
def getLocalPostsBase (accountName locationName : String) : String :=
  "https://mybusiness.googleapis.com/v4/" ++ accountName ++ "/" ++ locationName
    ++ "/localPosts?pageSize=100"

/-- Endpoint built by one `getLocalPosts` iteration (`&pageToken=`). -/
def getLocalPostsEndpoint (accountName locationName : String)
    (pageToken : Option JVal) : String :=
  if jsTruthyOpt pageToken then
    getLocalPostsBase accountName locationName ++ "&pageToken=" ++ jsToStringOpt pageToken
  else
    getLocalPostsBase accountName locationName

/-- `getLocalPosts(accountName, locationName)`: paginate, accumulating
`response.localPosts`. -/
def getLocalPosts (parseJson : String → JVal) (token : String)
    (accountName locationName : String) (st : NetState) :
    Except GmbError (List JVal) × NetState :=
  pageLoop parseJson token (getLocalPostsEndpoint accountName locationName) "localPosts"
    st.pending [] none st.log st.sleeps

/-- Base URI of `getReviews` (v4, name-string variant). -/
def getReviewsBase (accountName locationName : String) : String :=
  "https://mybusiness.googleapis.com/v4/" ++ accountName ++ "/" ++ locationName
    ++ "/reviews?pageSize=50"

/-- Endpoint built by one `getReviews` iteration (`&pageToken=`). -/
def getReviewsEndpoint (accountName locationName : String)
    (pageToken : Option JVal) : String :=
  if jsTruthyOpt pageToken then
    getReviewsBase accountName locationName ++ "&pageToken=" ++ jsToStringOpt pageToken
  else
    getReviewsBase accountName locationName

/-- `getReviews(accountName, locationName)`: paginate, accumulating
`response.reviews`. -/
def getReviews (parseJson : String → JVal) (token : String)
    (accountName locationName : String) (st : NetState) :
    Except GmbError (List JVal) × NetState :=
  pageLoop parseJson token (getReviewsEndpoint accountName locationName) "reviews"
    st.pending [] none st.log st.sleeps

/-- The chains-search endpoint: the caller's query is interpolated into
the URI verbatim (`chainName=${query}&pageSize=500`), with no encoding. -/
def searchChainsEndpoint (query : String) : String :=
  "https://mybusinessbusinessinformation.googleapis.com/v1/chains:search?chainName="
    ++ query ++ "&pageSize=500"

/-- `searchChains(query)`: a single GET (no pagination loop) returning
the raw parsed response, followed by the fixed 1000ms sleep; a thrown
request error propagates before the sleep. -/
def searchChains (parseJson : String → JVal) (token : String)
    (query : String) (st : NetState) : Except GmbError JVal × NetState :=
  match request parseJson token (searchChainsEndpoint query) "GET" requestDefaultPayload st with
  | (Except.error e, st') => (Except.error e, st')
  | (Except.ok v, st') => (Except.ok v, ⟨st'.pending, st'.log, st'.sleeps ++ [1000]⟩)

/-- The payload built by `getInsights`: `locationNames` is
`locations.map(location => account.name + "/" + location.name)` — every
supplied location name prefixed by the account resource name — plus the
fixed basicRequest block with the caller's time range. -/
def getInsightsPayload (account : JVal) (locations : List JVal)
    (startTime endTime : String) : JVal :=
  JVal.jobj
    [("locationNames",
      JVal.jarr (locations.map (fun location =>
        JVal.jstr (jsToStringOpt (jsGet account "name") ++ "/"
          ++ jsToStringOpt (jsGet location "name"))))),
     ("basicRequest",
      JVal.jobj
        [("metricRequests",
          JVal.jarr
            [JVal.jobj
              [("metric", JVal.jstr "ALL"),
               ("options",
                JVal.jarr [JVal.jstr "AGGREGATED_TOTAL", JVal.jstr "AGGREGATED_DAILY"])]]),
         ("timeRange",
          JVal.jobj
            [("startTime", JVal.jstr startTime),
             ("endTime", JVal.jstr endTime)])])]

/-- `getInsights(account, locations, startTime, endTime)`: a single POST
of the insights payload to the v4 reportInsights endpoint, returning the
raw parsed response; the fixed sleep follows a successful request. -/
def getInsights (parseJson : String → JVal) (token : String)
    (account : JVal) (locations : List JVal) (startTime endTime : String)
    (st : NetState) : Except GmbError JVal × NetState :=
  let endpoint := "https://mybusiness.googleapis.com/v4/"
    ++ jsToStringOpt (jsGet account "name") ++ "/locations:reportInsights"
  match request parseJson token endpoint "POST"
      (getInsightsPayload account locations startTime endTime) st with
  | (Except.error e, st') => (Except.error e, st')
  | (Except.ok v, st') => (Except.ok v, ⟨st'.pending, st'.log, st'.sleeps ++ [1000]⟩)

/-- Number of `?` characters in a string (for URI well-formedness). -/
def countQuestionMarks (s : String) : Nat :=
  (s.toList.filter (fun c => c = '?')).length

/-- A terminating page sequence: the last page's `nextPageToken` is falsy
(absent or empty) and every earlier page's token is truthy. -/
inductive TokenChain : List JVal → Prop
  | last (p : JVal) :
      jsTruthyOpt (jsGet p "nextPageToken") = false → TokenChain [p]
  | cons (p : JVal) (ps : List JVal) :
      jsTruthyOpt (jsGet p "nextPageToken") = true →
      TokenChain ps → TokenChain (p :: ps)

/-- Every page of the sequence holds a truthy continuation token. -/
def AllCont (ps : List JVal) : Prop :=
  ∀ p ∈ ps, jsTruthyOpt (jsGet p "nextPageToken") = true

/-- The upstream trace serves the given parsed pages: one response per
page, all with status 200, whose bodies parse to the pages in order. -/
def Serves (parseJson : String → JVal) (rs : List FetchResponse)
    (ps : List JVal) : Prop :=
  List.Forall₂ (fun r p => r.code = 200 ∧ parseJson r.content = p) rs ps

/-- Pages paired with the items arrays held in their `field` property. -/
def HasItems (field : String) (ps : List JVal)
    (itemss : List (List JVal)) : Prop :=
  List.Forall₂ (fun p xs => jsGet p field = some (JVal.jarr xs)) ps itemss

/-- A pagination run over a terminating, all-200 page sequence returns
the accumulator extended by each page's `concat` contribution in page
order, and sleeps exactly once (1000ms) per iteration. -/
theorem pageLoop_ok (parseJson : String → JVal) (token : String)
    (buildEndpoint : Option JVal → String) (itemsField : String) :
    ∀ (ps : List JVal) (rs : List FetchResponse) (acc : List JVal)
      (ptok : Option JVal) (log : List (String × FetchParam)) (sl : List Nat),
      TokenChain ps → Serves parseJson rs ps →
      (pageLoop parseJson token buildEndpoint itemsField rs acc ptok log sl).1 =
          Except.ok (acc ++ (ps.map (fun p => concatArg (jsGet p itemsField))).flatten)
        ∧ (pageLoop parseJson token buildEndpoint itemsField rs acc ptok log sl).2.sleeps
          = sl ++ List.replicate ps.length 1000 := by
  intro ps rs acc ptok log sl hchain
  induction hchain generalizing rs acc ptok log sl with
  | last p hfalse =>
    intro hserve
    unfold Serves at hserve
    cases hserve with
    | cons hrel htail =>
      cases htail
      obtain ⟨hc, hp⟩ := hrel
      simp [pageLoop, requestCore, hc, hp, hfalse]
  | cons p ps htrue hchain ih =>
    intro hserve
    unfold Serves at hserve
    cases hserve with
    | cons hrel htail =>
      obtain ⟨hc, hp⟩ := hrel
      have h := ih _ (acc ++ concatArg (jsGet p itemsField))
        (jsGet p "nextPageToken")
        (log ++ [(buildEndpoint ptok, mkFetchParam token "GET" requestDefaultPayload)])
        (sl ++ [1000]) htail
      simp [pageLoop, requestCore, hc, hp, htrue, h.1, h.2, List.replicate_succ]

/-- A pagination run that reaches a non-200 response after a prefix of
all-continuing 200 pages throws the request error of the bad response —
discarding the accumulator — and sleeps only once per completed
(successful) iteration, not for the failing one. -/
theorem pageLoop_err (parseJson : String → JVal) (token : String)
    (buildEndpoint : Option JVal → String) (itemsField : String) :
    ∀ (ps : List JVal) (rs : List FetchResponse) (rbad : FetchResponse)
      (rest : List FetchResponse) (acc : List JVal) (ptok : Option JVal)
      (log : List (String × FetchParam)) (sl : List Nat),
      AllCont ps → Serves parseJson rs ps → rbad.code ≠ 200 →
      (pageLoop parseJson token buildEndpoint itemsField
          (rs ++ rbad :: rest) acc ptok log sl).1 =
          Except.error (GmbError.requestError
            ⟨rbad.code, rbad.content, "This Request was not successful"⟩)
        ∧ (pageLoop parseJson token buildEndpoint itemsField
            (rs ++ rbad :: rest) acc ptok log sl).2.sleeps
          = sl ++ List.replicate ps.length 1000 := by
  intro ps rs rbad rest acc ptok log sl hcont hserve hbad
  unfold Serves at hserve
  revert hcont
  induction hserve generalizing acc ptok log sl with
  | nil =>
    intro hcont
    simp [pageLoop, requestCore, hbad]
  | @cons r p rs' ps' hrel htail ih =>
    intro hcont
    obtain ⟨hc, hp⟩ := hrel
    have htrue : jsTruthyOpt (jsGet p "nextPageToken") = true :=
      hcont p (List.mem_cons_self p ps')
    have hcont' : AllCont ps' := fun q hq => hcont q (List.mem_cons_of_mem p hq)
    have h := ih (acc ++ concatArg (jsGet p itemsField))
      (jsGet p "nextPageToken")
      (log ++ [(buildEndpoint ptok, mkFetchParam token "GET" requestDefaultPayload)])
      (sl ++ [1000]) hcont'
    simp [pageLoop, requestCore, hc, hp, htrue, h.1, h.2, List.replicate_succ]

/-- Pages related to their items arrays map to exactly those arrays. -/
theorem hasItems_map (field : String) :
    ∀ (ps : List JVal) (itemss : List (List JVal)), HasItems field ps itemss →
      ps.map (fun p => concatArg (jsGet p field)) = itemss := by
  intro ps itemss h
  unfold HasItems at h
  induction h with
  | nil => rfl
  | cons hrel _ ih =>
    simp only [List.map_cons, hrel, ih]
    rfl

/-- C1: for every finite sequence of upstream pages in which each page's
`accounts` field is present and only the final page's `nextPageToken` is
absent/falsy, `getAccounts` returns exactly the concatenation of the
pages' item arrays in page order — no duplicates, no omissions (so N
pages of k items yield N×k items). -/
theorem getAccounts_returns_concatenation
    (parseJson : String → JVal) (token parentAccount : String)
    (ps : List JVal) (rs : List FetchResponse) (itemss : List (List JVal))
    (log : List (String × FetchParam)) (sl : List Nat)
    (hchain : TokenChain ps) (hserve : Serves parseJson rs ps)
    (hitems : HasItems "accounts" ps itemss) :
    (getAccounts parseJson token parentAccount ⟨rs, log, sl⟩).1 =
      Except.ok itemss.flatten := by
  have h := pageLoop_ok parseJson token (getAccountsEndpoint parentAccount)
    "accounts" ps rs [] none log sl hchain hserve
  have hm := hasItems_map "accounts" ps itemss hitems
  simpa [getAccounts, hm] using h.1

/-- First upstream account of the concrete two-page run. -/
def wAcc1 : JVal := JVal.jobj [("name", JVal.jstr "a1")]

/-- Second upstream account of the concrete two-page run. -/
def wAcc2 : JVal := JVal.jobj [("name", JVal.jstr "a2")]

/-- Third upstream account of the concrete two-page run. -/
def wAcc3 : JVal := JVal.jobj [("name", JVal.jstr "a3")]

/-- Page 1 of the concrete run: two accounts and a continuation token. -/
def wPage1 : JVal :=
  JVal.jobj [("accounts", JVal.jarr [wAcc1, wAcc2]), ("nextPageToken", JVal.jstr "t1")]

/-- Page 2 of the concrete run: one account, no continuation token. -/
def wPage2 : JVal := JVal.jobj [("accounts", JVal.jarr [wAcc3])]

/-- A concrete `JSON.parse` for the two-page run. -/
def wParse : String → JVal := fun s => if s = "page1" then wPage1 else wPage2

/-- Witness for C1: the concrete two-page run
`{accounts:[a1,a2], nextPageToken:"t1"}` then `{accounts:[a3]}` returns
`[a1, a2, a3]`. -/
theorem getAccounts_returns_concatenation_witness :
    (getAccounts wParse "tok" ""
        ⟨[⟨200, "page1"⟩, ⟨200, "page2"⟩], [], []⟩).1 =
      Except.ok [wAcc1, wAcc2, wAcc3] := by
  have h := getAccounts_returns_concatenation wParse "tok" ""
    [wPage1, wPage2] [⟨200, "page1"⟩, ⟨200, "page2"⟩] [[wAcc1, wAcc2], [wAcc3]] [] []
    (TokenChain.cons wPage1 [wPage2] (by rfl) (TokenChain.last wPage2 (by rfl)))
    (List.Forall₂.cons ⟨rfl, by rfl⟩ (List.Forall₂.cons ⟨rfl, by rfl⟩ List.Forall₂.nil))
    (List.Forall₂.cons (by rfl) (List.Forall₂.cons (by rfl) List.Forall₂.nil))
  simpa using h

/-- A concrete `JSON.parse` returning a page with no `accounts` field
(and no token) for every body except `page1`. -/
def wParseMissing : String → JVal := fun s => if s = "page1" then wPage1 else JVal.jobj []

/-- Counterexample for C2: a page whose body lacks the `accounts` field
does NOT contribute zero elements — JavaScript `concat(undefined)`
appends one `undefined` element, so the two-page run (page 2 lacking
`accounts`) returns `[a1, a2, undefined]`, not `[a1, a2]`; in the
one-page variant shown here the result is `[undefined]`, not `[]`. -/
theorem getAccounts_missing_field_counterexample :
    (getAccounts wParseMissing "tok" "" ⟨[⟨200, "pageM"⟩], [], []⟩).1 =
        Except.ok [JVal.jundef]
      ∧ (getAccounts wParseMissing "tok" "" ⟨[⟨200, "pageM"⟩], [], []⟩).1 ≠
        Except.ok [] := by
  constructor
  · rfl
  · intro h
    rw [show (getAccounts wParseMissing "tok" "" ⟨[⟨200, "pageM"⟩], [], []⟩).1
        = Except.ok [JVal.jundef] from rfl] at h
    simp at h

/-- C2 (amended): a page whose body lacks the items field contributes
exactly one `undefined` element to the returned collection (JavaScript
`concat` appends the absent property's `undefined` value) and causes no
failure; the items of all other pages are returned unchanged, in order. -/
theorem getAccounts_missing_field_amended
    (parseJson : String → JVal) (token parentAccount : String)
    (ps₁ ps₂ : List JVal) (pmiss : JVal)
    (itemss₁ itemss₂ : List (List JVal)) (rs : List FetchResponse)
    (log : List (String × FetchParam)) (sl : List Nat)
    (hchain : TokenChain (ps₁ ++ pmiss :: ps₂))
    (hserve : Serves parseJson rs (ps₁ ++ pmiss :: ps₂))
    (hmiss : jsGet pmiss "accounts" = none)
    (h₁ : HasItems "accounts" ps₁ itemss₁)
    (h₂ : HasItems "accounts" ps₂ itemss₂) :
    (getAccounts parseJson token parentAccount ⟨rs, log, sl⟩).1 =
      Except.ok (itemss₁.flatten ++ JVal.jundef :: itemss₂.flatten) := by
  have h := pageLoop_ok parseJson token (getAccountsEndpoint parentAccount)
    "accounts" (ps₁ ++ pmiss :: ps₂) rs [] none log sl hchain hserve
  have hm₁ := hasItems_map "accounts" ps₁ itemss₁ h₁
  have hm₂ := hasItems_map "accounts" ps₂ itemss₂ h₂
  have hpm : concatArg (jsGet pmiss "accounts") = [JVal.jundef] := by
    rw [hmiss]
    rfl
  simpa [getAccounts, List.map_append, List.map_cons, hm₁, hm₂, hpm,
    List.flatten_append, List.flatten_cons] using h.1

/-- Witness for C2 (amended): page 1 holds `[a1, a2]` and a token, page 2
lacks the `accounts` field — the call succeeds with `[a1, a2, undefined]`. -/
theorem getAccounts_missing_field_amended_witness :
    (getAccounts wParseMissing "tok" ""
        ⟨[⟨200, "page1"⟩, ⟨200, "pageM"⟩], [], []⟩).1 =
      Except.ok [wAcc1, wAcc2, JVal.jundef] := by
  have h := getAccounts_missing_field_amended wParseMissing "tok" ""
    [wPage1] [] (JVal.jobj []) [[wAcc1, wAcc2]] []
    [⟨200, "page1"⟩, ⟨200, "pageM"⟩] [] []
    (TokenChain.cons wPage1 [JVal.jobj []] (by rfl)
      (TokenChain.last (JVal.jobj []) (by rfl)))
    (List.Forall₂.cons ⟨rfl, by rfl⟩ (List.Forall₂.cons ⟨rfl, by rfl⟩ List.Forall₂.nil))
    rfl
    (List.Forall₂.cons (by rfl) List.Forall₂.nil)
    List.Forall₂.nil
  simpa using h

/-- C3: a non-200 response while fetching some page makes the whole
paginated call throw that request error — the accumulator built from the
earlier pages is discarded, never returned as a partial result. -/
theorem getAccounts_error_discards_partial
    (parseJson : String → JVal) (token parentAccount : String)
    (ps : List JVal) (rs : List FetchResponse) (rbad : FetchResponse)
    (rest : List FetchResponse) (log : List (String × FetchParam)) (sl : List Nat)
    (hcont : AllCont ps) (hserve : Serves parseJson rs ps)
    (hbad : rbad.code ≠ 200) :
    (getAccounts parseJson token parentAccount ⟨rs ++ rbad :: rest, log, sl⟩).1 =
      Except.error (GmbError.requestError
        ⟨rbad.code, rbad.content, "This Request was not successful"⟩) := by
  have h := pageLoop_err parseJson token (getAccountsEndpoint parentAccount)
    "accounts" ps rs rbad rest [] none log sl hcont hserve hbad
  simpa [getAccounts] using h.1

/-- Witness for C3: page 1 succeeds with a continuation token, page 2
answers 403 — `getAccounts` throws and returns none of page 1's items. -/
theorem getAccounts_error_discards_partial_witness :
    (getAccounts wParse "tok" ""
        ⟨[⟨200, "page1"⟩, ⟨403, "denied"⟩], [], []⟩).1 =
      Except.error (GmbError.requestError
        ⟨403, "denied", "This Request was not successful"⟩) := by
  have h := getAccounts_error_discards_partial wParse "tok" ""
    [wPage1] [⟨200, "page1"⟩] ⟨403, "denied"⟩ [] [] []
    (by intro p hp; rw [List.mem_singleton] at hp; subst hp; rfl)
    (List.Forall₂.cons ⟨rfl, by rfl⟩ List.Forall₂.nil)
    (by decide)
  simpa using h

/-- C5: every non-200 upstream response makes `request` raise an error
carrying the numeric status code, the raw response body text and the
fixed message, having consumed exactly one upstream response and issued
exactly one fetch — no retry, no sleep. -/
theorem request_non200_raises
    (parseJson : String → JVal) (token endPoint method : String) (payload : JVal)
    (r : FetchResponse) (rest : List FetchResponse)
    (log : List (String × FetchParam)) (sl : List Nat)
    (hbad : r.code ≠ 200) :
    request parseJson token endPoint method payload ⟨r :: rest, log, sl⟩ =
      (Except.error (GmbError.requestError
        ⟨r.code, r.content, "This Request was not successful"⟩),
       ⟨rest, log ++ [(endPoint, mkFetchParam token method payload)], sl⟩) := by
  simp [request, requestCore, hbad]

/-- Witness for C5: a 403 response with body `{"error":"denied"}` raises
an error carrying status 403 and that exact body, with only one request
issued. -/
theorem request_non200_raises_witness :
    request wParse "tok" "https://example.invalid" "GET" requestDefaultPayload
        ⟨[⟨403, "\x7b\"error\":\"denied\"\x7d"⟩], [], []⟩ =
      (Except.error (GmbError.requestError
        ⟨403, "\x7b\"error\":\"denied\"\x7d", "This Request was not successful"⟩),
       ⟨[], [("https://example.invalid",
              mkFetchParam "tok" "GET" requestDefaultPayload)], []⟩) :=
  request_non200_raises wParse "tok" "https://example.invalid" "GET"
    requestDefaultPayload ⟨403, "\x7b\"error\":\"denied\"\x7d"⟩ [] [] [] (by decide)

/-- The request log always grows by exactly the one issued fetch. -/
theorem request_log (parseJson : String → JVal) (token endPoint method : String)
    (payload : JVal) (st : NetState) :
    (request parseJson token endPoint method payload st).2.log =
      st.log ++ [(endPoint, mkFetchParam token method payload)] := by
  obtain ⟨pending, log0, sl0⟩ := st
  cases pending with
  | nil => rfl
  | cons r rest =>
    simp only [request]
    cases requestCore parseJson r <;> rfl

/-- A concrete truthy payload object, `{a:"b"}`. -/
def wPayload : JVal := JVal.jobj [("a", JVal.jstr "b")]

/-- Counterexample for C4: a GET request with a (truthy) payload DOES
serialize and attach a body — the method is never consulted — refuting
"serializes exactly when a payload is present and the method is not
GET". -/
theorem request_get_with_payload_attaches_body :
    (request wParse "tok" "https://example.invalid" "GET" wPayload
        ⟨[⟨200, "page2"⟩], [], []⟩).2.log =
      [("https://example.invalid", mkFetchParam "tok" "GET" wPayload)]
    ∧ (mkFetchParam "tok" "GET" wPayload).payload = some "\x7b\"a\":\"b\"\x7d"
    ∧ (mkFetchParam "tok" "GET" wPayload).payload ≠ none := by
  refine ⟨rfl, rfl, ?_⟩
  intro h
  rw [show (mkFetchParam "tok" "GET" wPayload).payload
      = some "\x7b\"a\":\"b\"\x7d" from rfl] at h
  simp at h

/-- C4 (amended): `request` serializes the payload into a JSON request
body exactly when the payload is truthy, regardless of the method; in
particular a GET call with no payload supplied (the default `''`) sends
no request body. -/
theorem request_body_iff_truthy_payload
    (parseJson : String → JVal) (token endPoint method : String) (payload : JVal)
    (st : NetState) :
    ((request parseJson token endPoint method payload st).2.log =
      st.log ++ [(endPoint, mkFetchParam token method payload)])
    ∧ ((mkFetchParam token method payload).payload = none ↔ jsTruthy payload = false)
    ∧ (jsTruthy payload = true →
        (mkFetchParam token method payload).payload = some (jsonStringify payload))
    ∧ (mkFetchParam token "GET" requestDefaultPayload).payload = none := by
  refine ⟨request_log parseJson token endPoint method payload st, ?_, ?_, rfl⟩
  · cases h : jsTruthy payload <;> simp [mkFetchParam, h]
  · intro h
    simp [mkFetchParam, h]

/-- Witness for C4 (amended): a POST with the truthy payload `{a:"b"}`
attaches its serialization as the body. -/
theorem request_body_iff_truthy_payload_witness :
    (mkFetchParam "tok" "POST" wPayload).payload = some (jsonStringify wPayload) :=
  (request_body_iff_truthy_payload wParse "tok" "https://example.invalid"
    "POST" wPayload ⟨[], [], []⟩).2.2.1 rfl

/-- C10: whether `request` attaches a body is decided solely by the
payload's truthiness: the falsy payloads `''` (the default), `0` and
`false` produce no body even under POST, while every truthy payload is
serialized and attached whatever the method is. -/
theorem request_body_truthiness_only
    (parseJson : String → JVal) (token endPoint : String) (st : NetState) :
    ((request parseJson token endPoint "POST" (JVal.jstr "") st).2.log.map
        (fun e => e.2.payload) = st.log.map (fun e => e.2.payload) ++ [none])
    ∧ ((request parseJson token endPoint "POST" (JVal.jnum 0) st).2.log.map
        (fun e => e.2.payload) = st.log.map (fun e => e.2.payload) ++ [none])
    ∧ ((request parseJson token endPoint "POST" (JVal.jbool false) st).2.log.map
        (fun e => e.2.payload) = st.log.map (fun e => e.2.payload) ++ [none])
    ∧ (∀ (method : String) (payload : JVal), jsTruthy payload = true →
        (request parseJson token endPoint method payload st).2.log.map
            (fun e => e.2.payload) =
          st.log.map (fun e => e.2.payload) ++ [some (jsonStringify payload)]) := by
  refine ⟨?_, ?_, ?_, ?_⟩
  · rw [request_log parseJson token endPoint "POST" (JVal.jstr "") st]
    simp [mkFetchParam, jsTruthy]
  · rw [request_log parseJson token endPoint "POST" (JVal.jnum 0) st]
    simp [mkFetchParam, jsTruthy]
  · rw [request_log parseJson token endPoint "POST" (JVal.jbool false) st]
    simp [mkFetchParam, jsTruthy]
  · intro method payload h
    rw [request_log parseJson token endPoint method payload st]
    simp [mkFetchParam, h]

/-- Witness for C10: a GET with the truthy payload `7` attaches the body
`"7"`. -/
theorem request_body_truthiness_only_witness :
    (request wParse "tok" "https://example.invalid" "GET" (JVal.jnum 7)
        ⟨[], [], []⟩).2.log.map (fun e => e.2.payload) = [some "7"] := by
  have h := (request_body_truthiness_only wParse "tok" "https://example.invalid"
    ⟨[], [], []⟩).2.2.2 "GET" (JVal.jnum 7) rfl
  simpa using h

/-- A concrete `JSON.parse` for the single-request runs. -/
def wParseChains : String → JVal := fun _ => JVal.jobj [("chains", JVal.jarr [])]

/-- Counterexample for C6: `searchChains("Foo Bar")` interpolates the
query into the URI verbatim — the issued query string is
`chainName=Foo Bar&pageSize=500` with a literal space, NOT the
URL-encoded `chainName=Foo%20Bar&pageSize=500` the claim states. -/
theorem searchChains_query_not_encoded :
    searchChainsEndpoint "Foo Bar" =
      "https://mybusinessbusinessinformation.googleapis.com/v1/chains:search?chainName=Foo Bar&pageSize=500"
    ∧ searchChainsEndpoint "Foo Bar" ≠
      "https://mybusinessbusinessinformation.googleapis.com/v1/chains:search?chainName=Foo%20Bar&pageSize=500"
    ∧ (searchChains wParseChains "tok" "Foo Bar" ⟨[⟨200, "body"⟩], [], []⟩).2.log =
      [(searchChainsEndpoint "Foo Bar", mkFetchParam "tok" "GET" requestDefaultPayload)] := by
  refine ⟨rfl, by decide, rfl⟩

/-- C6 (amended): `searchChains(query)` issues exactly one GET — no
pagination loop, one consumed response, one log entry, no body — to the
chains-search endpoint whose query string is `chainName=<query>&pageSize=500`
with the query interpolated verbatim (not URL-encoded), and returns the
raw parsed JSON response object. -/
theorem searchChains_single_get
    (parseJson : String → JVal) (token query : String) (r : FetchResponse)
    (rest : List FetchResponse) (log : List (String × FetchParam)) (sl : List Nat)
    (hok : r.code = 200) :
    searchChains parseJson token query ⟨r :: rest, log, sl⟩ =
      (Except.ok (parseJson r.content),
       ⟨rest,
        log ++ [("https://mybusinessbusinessinformation.googleapis.com/v1/chains:search?chainName="
            ++ query ++ "&pageSize=500",
          mkFetchParam token "GET" requestDefaultPayload)],
        sl ++ [1000]⟩) := by
  simp [searchChains, searchChainsEndpoint, request, requestCore, hok]

/-- Witness for C6 (amended): a concrete 200 response makes
`searchChains` return the parsed body after its single GET. -/
theorem searchChains_single_get_witness :
    searchChains wParseChains "tok" "Foo Bar" ⟨[⟨200, "chainsBody"⟩], [], []⟩ =
      (Except.ok (wParseChains "chainsBody"),
       ⟨[],
        [("https://mybusinessbusinessinformation.googleapis.com/v1/chains:search?chainName=Foo Bar&pageSize=500",
          mkFetchParam "tok" "GET" requestDefaultPayload)],
        [1000]⟩) := by
  have h := searchChains_single_get wParseChains "tok" "Foo Bar"
    ⟨200, "chainsBody"⟩ [] [] [] rfl
  simpa using h

/-- The log of `getInsights` is the log of its single POST request. -/
theorem getInsights_log (parseJson : String → JVal) (token : String)
    (account : JVal) (locations : List JVal) (startTime endTime : String)
    (st : NetState) :
    (getInsights parseJson token account locations startTime endTime st).2.log =
      (request parseJson token
        ("https://mybusiness.googleapis.com/v4/"
          ++ jsToStringOpt (jsGet account "name") ++ "/locations:reportInsights")
        "POST" (getInsightsPayload account locations startTime endTime) st).2.log := by
  simp only [getInsights]
  rcases hreq : request parseJson token
    ("https://mybusiness.googleapis.com/v4/"
      ++ jsToStringOpt (jsGet account "name") ++ "/locations:reportInsights")
    "POST" (getInsightsPayload account locations startTime endTime) st with ⟨res, st'⟩
  cases res <;> rfl

/-- C9: for every account object carrying a string `name` and every list
of location objects (of any length — no 10-element cap is enforced), the
`locationNames` field of the payload `getInsights` submits is exactly the
list of strings `<account name>/<location name>` in the caller's order,
and that payload is POSTed in the single issued request. -/
theorem getInsights_prefixes_account_name
    (parseJson : String → JVal) (token startTime endTime : String)
    (account : JVal) (accountName : String)
    (locations : List JVal) (names : List String) (st : NetState)
    (ha : jsGet account "name" = some (JVal.jstr accountName))
    (hl : List.Forall₂ (fun loc nm => jsGet loc "name" = some (JVal.jstr nm))
        locations names) :
    (jsGet (getInsightsPayload account locations startTime endTime) "locationNames" =
      some (JVal.jarr (names.map (fun nm => JVal.jstr (accountName ++ "/" ++ nm)))))
    ∧ ((getInsights parseJson token account locations startTime endTime st).2.log =
        st.log ++ [("https://mybusiness.googleapis.com/v4/" ++ accountName
            ++ "/locations:reportInsights",
          mkFetchParam token "POST"
            (getInsightsPayload account locations startTime endTime))]) := by
  have hmap : locations.map (fun location =>
        JVal.jstr (jsToStringOpt (jsGet account "name") ++ "/"
          ++ jsToStringOpt (jsGet location "name")))
      = names.map (fun nm => JVal.jstr (accountName ++ "/" ++ nm)) := by
    induction hl with
    | nil => rfl
    | cons hrel _ ih =>
      simp only [List.map_cons, ih]
      rw [ha, hrel]
      rfl
  constructor
  · have hfield : jsGet (getInsightsPayload account locations startTime endTime)
          "locationNames"
        = some (JVal.jarr (locations.map (fun location =>
            JVal.jstr (jsToStringOpt (jsGet account "name") ++ "/"
              ++ jsToStringOpt (jsGet location "name"))))) := rfl
    rw [hfield, hmap]
  · rw [getInsights_log, request_log, ha]
    rfl

/-- A concrete account object for the insights run. -/
def wAccount : JVal := JVal.jobj [("name", JVal.jstr "accounts/123")]

/-- A concrete location object for the insights run. -/
def wLoc1 : JVal := JVal.jobj [("name", JVal.jstr "locations/1")]

/-- A second concrete location object for the insights run. -/
def wLoc2 : JVal := JVal.jobj [("name", JVal.jstr "locations/2")]

/-- Witness for C9: with account `accounts/123` and locations
`locations/1`, `locations/2`, the submitted `locationNames` are
`accounts/123/locations/1` and `accounts/123/locations/2`, in order. -/
theorem getInsights_prefixes_account_name_witness :
    jsGet (getInsightsPayload wAccount [wLoc1, wLoc2] "s" "e") "locationNames" =
      some (JVal.jarr [JVal.jstr "accounts/123/locations/1",
                       JVal.jstr "accounts/123/locations/2"]) := by
  have h := (getInsights_prefixes_account_name wParse "tok" "s" "e" wAccount
    "accounts/123" [wLoc1, wLoc2] ["locations/1", "locations/2"] ⟨[], [], []⟩
    rfl (List.Forall₂.cons rfl (List.Forall₂.cons rfl List.Forall₂.nil))).1
  simpa using h

/-- `?`-counting distributes over string append. -/
theorem countQuestionMarks_append (a b : String) :
    countQuestionMarks (a ++ b) = countQuestionMarks a + countQuestionMarks b := by
  simp [countQuestionMarks, String.toList, String.data_append, List.filter_append]

/-- Counterexample for C7: in the categories loop the source appends
`?pageToken=` even though the base URI already carries a `?` query
string, so the issued URI holds TWO `?` separators and is not the base
URI with `&pageToken=` appended. -/
theorem categories_pageToken_two_separators :
    getAllCategoriesEndpoint (some (JVal.jstr "t1")) =
      getAllCategoriesBase ++ "?pageToken=t1"
    ∧ countQuestionMarks (getAllCategoriesEndpoint (some (JVal.jstr "t1"))) = 2
    ∧ getAllCategoriesEndpoint (some (JVal.jstr "t1")) ≠
      getAllCategoriesBase ++ "&pageToken=t1" := by
  refine ⟨rfl, by decide, by decide⟩

/-- C7 (amended): when a page token `t` is held, the accounts, locations,
local-posts and reviews loops request the base URI with `&pageToken=t`
appended, while the categories, attributes and place-action-links loops
append `?pageToken=t`; for categories and attributes — whose base URIs
already carry a `?` query — the issued URI therefore contains two `?`
separators (malformed), whereas the place-action-links base carries no
query of its own, and the accounts URI keeps a single `?`. -/
theorem pageToken_separator_forms (t : String) (ht : t ≠ "")
    (account location : JVal) (accountName locationName : String) :
    getAccountsEndpoint "" (some (JVal.jstr t)) = getAccountsBase ++ "&pageToken=" ++ t
    ∧ getLocationsEndpoint account (some (JVal.jstr t)) =
        getLocationsBase account ++ "&pageToken=" ++ t
    ∧ getAllCategoriesEndpoint (some (JVal.jstr t)) =
        getAllCategoriesBase ++ "?pageToken=" ++ t
    ∧ getAllAttributesEndpoint (some (JVal.jstr t)) =
        getAllAttributesBase ++ "?pageToken=" ++ t
    ∧ getPlaceActionLinkEndpoint location (some (JVal.jstr t)) =
        getPlaceActionLinkBase location ++ "?pageToken=" ++ t
    ∧ getLocalPostsEndpoint accountName locationName (some (JVal.jstr t)) =
        getLocalPostsBase accountName locationName ++ "&pageToken=" ++ t
    ∧ getReviewsEndpoint accountName locationName (some (JVal.jstr t)) =
        getReviewsBase accountName locationName ++ "&pageToken=" ++ t
    ∧ countQuestionMarks (getAllCategoriesEndpoint (some (JVal.jstr t))) =
        2 + countQuestionMarks t
    ∧ countQuestionMarks (getAllAttributesEndpoint (some (JVal.jstr t))) =
        2 + countQuestionMarks t
    ∧ countQuestionMarks (getAccountsEndpoint "" (some (JVal.jstr t))) =
        1 + countQuestionMarks t := by
  have htr : jsTruthyOpt (some (JVal.jstr t)) = true := by
    simp [jsTruthyOpt, jsTruthy, ht]
  have hcat : getAllCategoriesEndpoint (some (JVal.jstr t)) =
      getAllCategoriesBase ++ "?pageToken=" ++ t := by
    simp [getAllCategoriesEndpoint, htr]
    rfl
  have hattr : getAllAttributesEndpoint (some (JVal.jstr t)) =
      getAllAttributesBase ++ "?pageToken=" ++ t := by
    simp [getAllAttributesEndpoint, htr]
    rfl
  have hacc : getAccountsEndpoint "" (some (JVal.jstr t)) =
      getAccountsBase ++ "&pageToken=" ++ t := by
    simp [getAccountsEndpoint, htr]
    rfl
  refine ⟨hacc, ?_, hcat, hattr, ?_, ?_, ?_, ?_, ?_, ?_⟩
  · simp [getLocationsEndpoint, htr]
    rfl
  · simp [getPlaceActionLinkEndpoint, htr]
    rfl
  · simp [getLocalPostsEndpoint, htr]
    rfl
  · simp [getReviewsEndpoint, htr]
    rfl
  · rw [hcat, countQuestionMarks_append, countQuestionMarks_append,
      show countQuestionMarks getAllCategoriesBase = 1 from by decide,
      show countQuestionMarks "?pageToken=" = 1 from by decide]
  · rw [hattr, countQuestionMarks_append, countQuestionMarks_append,
      show countQuestionMarks getAllAttributesBase = 1 from by decide,
      show countQuestionMarks "?pageToken=" = 1 from by decide]
  · rw [hacc, countQuestionMarks_append, countQuestionMarks_append,
      show countQuestionMarks getAccountsBase = 1 from by decide,
      show countQuestionMarks "&pageToken=" = 0 from by decide]

/-- Witness for C7 (amended): with token `t1`, the accounts URI appends
`&pageToken=t1` (one `?` in total) while the attributes URI appends
`?pageToken=t1` after its existing query (two `?` in total). -/
theorem pageToken_separator_forms_witness :
    getAccountsEndpoint "" (some (JVal.jstr "t1")) =
      "https://mybusinessaccountmanagement.googleapis.com/v1/accounts?pageSize=20&pageToken=t1"
    ∧ getAllAttributesEndpoint (some (JVal.jstr "t1")) =
      "https://mybusinessbusinessinformation.googleapis.com/v1/attributes?regionCode=JP&languageCode=ja&showAll=true?pageToken=t1"
    ∧ countQuestionMarks (getAllAttributesEndpoint (some (JVal.jstr "t1"))) = 2 := by
  have h := pageToken_separator_forms "t1" (by decide)
    (JVal.jobj []) (JVal.jobj []) "accounts/1" "locations/1"
  exact ⟨h.1, h.2.2.2.1, by rw [h.2.2.2.2.2.2.2.2.1]; decide⟩

/-- Counterexample for C8: the sleep IS skipped when the request of an
iteration errors — a run whose first page answers 500 executes no sleep
at all (the claim requires the 1000ms sleep even on error), because the
`await request(...)` rejection propagates before `Utilities.sleep`. -/
theorem sleep_skipped_on_error_counterexample :
    (getAccounts wParse "tok" "" ⟨[⟨500, "oops"⟩], [], []⟩).2.sleeps = []
    ∧ (getAccounts wParse "tok" "" ⟨[⟨500, "oops"⟩], [], []⟩).1 =
      Except.error (GmbError.requestError
        ⟨500, "oops", "This Request was not successful"⟩) := ⟨rfl, rfl⟩

/-- C8 (amended): every pagination iteration whose request succeeds —
including the first and the final one — executes exactly one fixed
1000ms sleep, but the sleep of an iteration whose request errors is
skipped: a run that fails at page i+1 has executed exactly i sleeps. -/
theorem sleep_per_successful_iteration
    (parseJson parseJson2 : String → JVal) (token token2 pa pa2 : String)
    (ps ps2 : List JVal) (rs rs2 : List FetchResponse) (rbad : FetchResponse)
    (rest : List FetchResponse)
    (log log2 : List (String × FetchParam)) (sl sl2 : List Nat)
    (hchain : TokenChain ps) (hserve : Serves parseJson rs ps)
    (hcont : AllCont ps2) (hserve2 : Serves parseJson2 rs2 ps2)
    (hbad : rbad.code ≠ 200) :
    ((getAccounts parseJson token pa ⟨rs, log, sl⟩).2.sleeps =
      sl ++ List.replicate ps.length 1000)
    ∧ ((getAccounts parseJson2 token2 pa2 ⟨rs2 ++ rbad :: rest, log2, sl2⟩).2.sleeps =
      sl2 ++ List.replicate ps2.length 1000) := by
  constructor
  · have h := pageLoop_ok parseJson token (getAccountsEndpoint pa) "accounts"
      ps rs [] none log sl hchain hserve
    simpa [getAccounts] using h.2
  · have h := pageLoop_err parseJson2 token2 (getAccountsEndpoint pa2) "accounts"
      ps2 rs2 rbad rest [] none log2 sl2 hcont hserve2 hbad
    simpa [getAccounts] using h.2

/-- Witness for C8 (amended): the successful two-page run sleeps twice
(`[1000, 1000]`); the run failing at its second page sleeps once. -/
theorem sleep_per_successful_iteration_witness :
    ((getAccounts wParse "tok" ""
        ⟨[⟨200, "page1"⟩, ⟨200, "page2"⟩], [], []⟩).2.sleeps = [1000, 1000])
    ∧ ((getAccounts wParse "tok" ""
        ⟨[⟨200, "page1"⟩, ⟨403, "denied"⟩], [], []⟩).2.sleeps = [1000]) := by
  have h := sleep_per_successful_iteration wParse wParse "tok" "tok" "" ""
    [wPage1, wPage2] [wPage1]
    [⟨200, "page1"⟩, ⟨200, "page2"⟩] [⟨200, "page1"⟩]
    ⟨403, "denied"⟩ [] [] [] [] []
    (TokenChain.cons wPage1 [wPage2] (by rfl) (TokenChain.last wPage2 (by rfl)))
    (List.Forall₂.cons ⟨rfl, by rfl⟩ (List.Forall₂.cons ⟨rfl, by rfl⟩ List.Forall₂.nil))
    (by intro p hp; rw [List.mem_singleton] at hp; subst hp; rfl)
    (List.Forall₂.cons ⟨rfl, by rfl⟩ List.Forall₂.nil)
    (by decide)
  exact ⟨by simpa using h.1, by simpa using h.2⟩
